import Mathlib

/-!
Verification of the dose calculation engine of the SMART Insulin Worksheet
(`src/app.py`).  The engine is a set of pure arithmetic functions: total
daily dose (TDD) from weight, dose factor and visit type; per-regimen dose
splits; two correction-dose tables over fixed 40 mg/dL glucose bins; and a
standalone bolus-correction calculator.  Python floats are modelled as exact
rationals (ℚ) and Python's built-in banker's rounding as `pyround`.
-/

namespace Insulin

/-- Python's built-in `round` on a number: round half to even.
`⌊q⌋` when the fractional part is below 1/2, `⌊q⌋ + 1` when above,
and the even neighbour on an exact tie. -/
def pyround (q : ℚ) : ℤ :=
  if q - ⌊q⌋ < 1/2 then ⌊q⌋
  else if 1/2 < q - ⌊q⌋ then ⌊q⌋ + 1
  else if ⌊q⌋ % 2 = 0 then ⌊q⌋ else ⌊q⌋ + 1

/-- `round_unit(x, step=0.5)` from app.py line 24: `step * round(float(x) / step)`
with the default step 0.5. -/
def round_unit (x : ℚ) : ℚ := (1/2) * pyround (x / (1/2))

/-- Visit types of the entry form (app.py lines 47-56). -/
inductive VisitType
  | Initial
  | RepeatWithPrevTDD
  | InadequateControl
  | Hypoglycemia
deriving DecidableEq

/-- Python's `prev_tdd or tdd_base` (app.py lines 110, 114, 118):
`None` and `0.0` are falsy, so both fall back to the base value. -/
def orFallback (prev : Option ℚ) (base : ℚ) : ℚ :=
  match prev with
  | none => base
  | some v => if v = 0 then base else v

/-- Visit logic for TDD before rounding (app.py lines 104-119):
`tdd_base = wt * factor`, then the visit-type branch. `step` is the
escalation or de-escalation percentage selected by the caller. -/
def rawTDD (wt factor : ℚ) (visit : VisitType) (prev : Option ℚ) (step : ℚ) : ℚ :=
  match visit with
  | .Initial => wt * factor
  | .RepeatWithPrevTDD => orFallback prev (wt * factor)
  | .InadequateControl => orFallback prev (wt * factor) * (1 + step / 100)
  | .Hypoglycemia => orFallback prev (wt * factor) * (1 - step / 100)

/-- The TDD used downstream (app.py line 121): the raw visit-type TDD
rounded to the nearest 0.5 unit. -/
def computeTDD (wt factor : ℚ) (visit : VisitType) (prev : Option ℚ) (step : ℚ) : ℚ :=
  round_unit (rawTDD wt factor visit prev step)

/-- Insulin type for the correction tables and bolus calculator. -/
inductive InsulinType
  | Rapid
  | Regular
deriving DecidableEq

/-- Correction factor (app.py line 169): `1800/tdd` for the rapid
analogue, `1500/tdd` for regular insulin. -/
def cf (ins : InsulinType) (tdd : ℚ) : ℚ :=
  match ins with
  | .Rapid => 1800 / tdd
  | .Regular => 1500 / tdd

/-- Insulin sensitivity factor of the standalone bolus calculator
(app.py line 317): `1500/tdd` for Regular, else `1800/tdd`. -/
def isf (ins : InsulinType) (tdd : ℚ) : ℚ :=
  match ins with
  | .Regular => 1500 / tdd
  | .Rapid => 1800 / tdd

/-- Fixed 40 mg/dL bins (app.py line 172). -/
def bins_40 : List (ℤ × ℤ) := [(131, 170), (171, 210), (211, 250), (251, 290), (291, 330)]

/-- One closed-bin row of the risk-aware correction table
(app.py lines 174-184): `(units_usual, units_hypo)`. -/
def closedRow (tdd : ℚ) (ins : InsulinType) (target lo : ℤ) : ℤ × ℤ :=
  let delta : ℤ := max 0 (lo - target)
  let units_usual : ℤ := max 1 ⌈(delta : ℚ) / cf ins tdd⌉
  let units_hypo : ℤ := max 0 (units_usual - 1)
  (units_usual, units_hypo)

/-- The `>330` row with safety bump of the risk-aware correction table
(app.py lines 185-189): `lo = 331`, `+5` on `units_usual`, and
`units_hypo` derived from the bumped value. -/
def openRow (tdd : ℚ) (ins : InsulinType) (target : ℤ) : ℤ × ℤ :=
  let delta : ℤ := max 0 (331 - target)
  let units_usual : ℤ := max 1 ⌈(delta : ℚ) / cf ins tdd⌉ + 5
  let units_hypo : ℤ := max 0 (units_usual - 1)
  (units_usual, units_hypo)

/-- The risk-aware correction table (app.py lines 172-189): the five
closed bins followed by the open `>330` row. -/
def correctionTable (tdd : ℚ) (ins : InsulinType) (target : ℤ) : List (ℤ × ℤ) :=
  bins_40.map (fun b => closedRow tdd ins target b.1) ++ [openRow tdd ins target]

/-- Regimen split, premixed twice a day (app.py lines 146-150):
2/3 breakfast, 1/3 supper, each rounded to 0.5 U. -/
def premixBID (tdd : ℚ) : ℚ × ℚ :=
  (round_unit (tdd * 2 / 3), round_unit (tdd * 1 / 3))

/-- Regimen split, premixed three times a day (app.py lines 151-155):
40% breakfast, 30% lunch, 30% dinner, each rounded to 0.5 U. -/
def premixTID (tdd : ℚ) : ℚ × ℚ × ℚ :=
  (round_unit (tdd * 0.40), round_unit (tdd * 0.30), round_unit (tdd * 0.30))

/-- Regimen split, basal bolus (app.py lines 156-160): 50% basal,
50% bolus total, each rounded to 0.5 U. -/
def basalBolus (tdd : ℚ) : ℚ × ℚ :=
  (round_unit (tdd * 0.50), round_unit (tdd * 0.50))

/-- Standalone bolus correction, usual protocol (app.py line 318). -/
def bolusUnitsUsual (tdd : ℚ) (ins : InsulinType) (premeal : ℤ) : ℤ :=
  if premeal ≤ 130 then 0 else ⌈((premeal : ℚ) - 130) / isf ins tdd⌉

/-- Standalone bolus correction, hypoglycemia-prone protocol (app.py line 319). -/
def bolusUnitsHypo (tdd : ℚ) (ins : InsulinType) (premeal : ℤ) : ℤ :=
  if premeal ≤ 140 then 0 else ⌈((premeal : ℚ) - 140) / isf ins tdd⌉

/-- Fixed buckets of the reference correction table (app.py line 331). -/
def ref_buckets : List (ℤ × ℤ) := [(131, 170), (171, 210), (211, 250), (251, 290), (291, 330)]

/-- One closed-bin row of the reference correction table (app.py lines
333-338): targets hardcoded to 130 (usual) and 140 (hypo). -/
def refClosedRow (tdd : ℚ) (ins : InsulinType) (lo : ℤ) : ℤ × ℤ :=
  let delta_usual : ℤ := max 0 (lo - 130)
  let delta_hypo : ℤ := max 0 (lo - 140)
  (max 1 ⌈(delta_usual : ℚ) / isf ins tdd⌉, max 0 ⌈(delta_hypo : ℚ) / isf ins tdd⌉)

/-- The `>330` row of the reference correction table (app.py lines
339-347): `+5` on usual, `+4` on hypo, hypo computed from its own delta. -/
def refOpenRow (tdd : ℚ) (ins : InsulinType) : ℤ × ℤ :=
  let delta_usual : ℤ := max 0 (331 - 130)
  let delta_hypo : ℤ := max 0 (331 - 140)
  (max 1 ⌈(delta_usual : ℚ) / isf ins tdd⌉ + 5, max 0 ⌈(delta_hypo : ℚ) / isf ins tdd⌉ + 4)

/-- The reference correction table of the standalone bolus calculator
(app.py lines 330-347). -/
def refTable (tdd : ℚ) (ins : InsulinType) : List (ℤ × ℤ) :=
  ref_buckets.map (fun b => refClosedRow tdd ins b.1) ++ [refOpenRow tdd ins]

/-- The set of dose factors offered by the form (app.py line 42). -/
def doseFactors : List ℚ := [0.1, 0.2, 0.3, 0.4, 0.5, 0.6]

/-- The escalation / de-escalation steps offered (app.py lines 113, 117). -/
def stepOptions : List ℚ := [10, 15, 20]

/-! ### Basic facts about the rounding functions -/

theorem pyround_bounds (q : ℚ) : q - 1/2 ≤ (pyround q : ℚ) ∧ (pyround q : ℚ) ≤ q + 1/2 := by
  have h0 : (⌊q⌋ : ℚ) ≤ q := Int.floor_le q
  have h1 : q < ⌊q⌋ + 1 := Int.lt_floor_add_one q
  unfold pyround
  split_ifs <;> constructor <;> push_cast <;> linarith

theorem pyround_intCast (n : ℤ) : pyround (n : ℚ) = n := by
  unfold pyround
  rw [Int.floor_intCast]
  norm_num

theorem pyround_add_two_mul (q : ℚ) (n : ℤ) :
    pyround (q + 2 * (n : ℚ)) = pyround q + 2 * n := by
  have hf : ⌊q + 2 * (n : ℚ)⌋ = ⌊q⌋ + 2 * n := by
    rw [show (2 * (n : ℚ)) = ((2 * n : ℤ) : ℚ) by push_cast; ring, Int.floor_add_int]
  have hm : (⌊q⌋ + 2 * n) % 2 = ⌊q⌋ % 2 := by omega
  unfold pyround
  rw [hf]
  rw [show ((⌊q⌋ + 2 * n : ℤ) : ℚ) = (⌊q⌋ : ℚ) + 2 * n by push_cast; ring]
  rw [show q + 2 * (n : ℚ) - ((⌊q⌋ : ℚ) + 2 * n) = q - ⌊q⌋ by ring]
  rw [hm]
  split_ifs <;> ring

theorem round_unit_eq (x : ℚ) : round_unit x = (pyround (2 * x) : ℚ) / 2 := by
  unfold round_unit
  rw [show x / (1/2 : ℚ) = 2 * x by ring]
  ring

theorem round_unit_bounds (x : ℚ) : x - 1/4 ≤ round_unit x ∧ round_unit x ≤ x + 1/4 := by
  have h := pyround_bounds (2 * x)
  rw [round_unit_eq]
  constructor <;> linarith [h.1, h.2]

theorem round_unit_pos (x : ℚ) (h : 2/5 ≤ x) : 0 < round_unit x := by
  rw [round_unit_eq]
  have hb := pyround_bounds (2 * x)
  have hz : (0 : ℤ) < pyround (2 * x) := by
    by_contra hc
    push_neg at hc
    have : (pyround (2 * x) : ℚ) ≤ 0 := by exact_mod_cast hc
    linarith [hb.1]
  have : (0 : ℚ) < (pyround (2 * x) : ℚ) := by exact_mod_cast hz
  linarith

/-! ### Range facts about the form's option sets -/

theorem doseFactor_ge (factor : ℚ) (hf : factor ∈ doseFactors) : 1/10 ≤ factor := by
  simp only [doseFactors, List.mem_cons, List.not_mem_nil, or_false] at hf
  rcases hf with rfl | rfl | rfl | rfl | rfl | rfl <;> norm_num

theorem stepOption_bounds (step : ℚ) (hs : step ∈ stepOptions) : 10 ≤ step ∧ step ≤ 20 := by
  simp only [stepOptions, List.mem_cons, List.not_mem_nil, or_false] at hs
  rcases hs with rfl | rfl | rfl <;> norm_num

/-- Shared positivity fact: when the weight and factor are in range and any
supplied previous TDD is zero (falling back) or at least half a unit, the
rounded TDD is strictly positive. -/
theorem computeTDD_pos (wt factor step : ℚ) (visit : VisitType) (prev : Option ℚ)
    (hw : 20 ≤ wt) (hf : factor ∈ doseFactors) (hs : step ∈ stepOptions)
    (hp : ∀ v ∈ prev, v = 0 ∨ 1/2 ≤ v) :
    0 < computeTDD wt factor visit prev step := by
  have hfge := doseFactor_ge factor hf
  obtain ⟨hs10, hs20⟩ := stepOption_bounds step hs
  have hbase : (2 : ℚ) ≤ wt * factor := by nlinarith
  have hx : (1/2 : ℚ) ≤ orFallback prev (wt * factor) := by
    cases prev with
    | none => simp only [orFallback]; linarith
    | some v =>
      simp only [orFallback]
      split_ifs with hv
      · linarith
      · rcases hp v rfl with rfl | hge
        · exact absurd rfl hv
        · exact hge
  unfold computeTDD
  apply round_unit_pos
  cases visit <;> simp only [rawTDD] <;> nlinarith

/-! ### Claims -/

/-- C1: for every valid input (weight in [20,300], dose factor in
{0.1,...,0.6}, previous TDD nonnegative when given, step in {10,15,20}),
the computed TDD equals the visit-type formula rounded to the nearest
0.5 unit: Initial gives `round_unit (wt*factor)`; RepeatWithPrevTDD gives
`round_unit (previous_tdd or wt*factor)`; InadequateControl gives
`round_unit ((previous_tdd or wt*factor) * (1 + step/100))`; Hypoglycemia
gives `round_unit ((previous_tdd or wt*factor) * (1 - step/100))`. -/
theorem C1_tdd_visit_formula (wt factor step : ℚ) (prev : Option ℚ)
    (hw : 20 ≤ wt ∧ wt ≤ 300) (hf : factor ∈ doseFactors)
    (hp : ∀ v ∈ prev, 0 ≤ v) (hs : step ∈ stepOptions) :
    computeTDD wt factor VisitType.Initial prev step = round_unit (wt * factor) ∧
    computeTDD wt factor VisitType.RepeatWithPrevTDD prev step
      = round_unit (orFallback prev (wt * factor)) ∧
    computeTDD wt factor VisitType.InadequateControl prev step
      = round_unit (orFallback prev (wt * factor) * (1 + step / 100)) ∧
    computeTDD wt factor VisitType.Hypoglycemia prev step
      = round_unit (orFallback prev (wt * factor) * (1 - step / 100)) :=
  ⟨rfl, rfl, rfl, rfl⟩

/-- Witness for C1 at weight 70, factor 0.3, previous TDD 40, step 15. -/
theorem C1_tdd_visit_formula_witness :
    computeTDD 70 0.3 VisitType.Initial (some 40) 15 = 21 ∧
    computeTDD 70 0.3 VisitType.RepeatWithPrevTDD (some 40) 15 = 40 := by
  have h := C1_tdd_visit_formula 70 0.3 15 (some 40)
    (by constructor <;> norm_num)
    (by simp [doseFactors])
    (by intro v hv; simp at hv; subst hv; norm_num)
    (by simp [stepOptions])
  constructor
  · rw [h.1]; norm_num [round_unit, pyround]
  · rw [h.2.1]; norm_num [orFallback, round_unit, pyround]

/-- C2 counterexample: previous TDD 0.2 is allowed by the claim's stated
ranges (it is nonnegative), yet for a repeat visit the rounded TDD is 0,
so the correction-factor division is reached with a zero TDD. -/
theorem C2_counterexample :
    computeTDD 70 0.3 VisitType.RepeatWithPrevTDD (some 0.2) 15 = 0 ∧
    ¬ (0 < computeTDD 70 0.3 VisitType.RepeatWithPrevTDD (some 0.2) 15) := by
  have h : computeTDD 70 0.3 VisitType.RepeatWithPrevTDD (some 0.2) 15 = 0 := by
    norm_num [computeTDD, rawTDD, orFallback, round_unit, pyround]
  exact ⟨h, by rw [h]; norm_num⟩

/-- C2 amended: for every input with weight in [20,300], dose factor in
{0.1,...,0.6}, step in {10,15,20}, and previous TDD a nonnegative multiple
of 0.5 (the form's increment), the rounded TDD reaching the
correction-factor division is strictly positive, and the correction factor
itself is positive for both insulin types. -/
theorem C2_tdd_positive (wt factor step : ℚ) (visit : VisitType) (prev : Option ℚ)
    (hw : 20 ≤ wt ∧ wt ≤ 300) (hf : factor ∈ doseFactors) (hs : step ∈ stepOptions)
    (hp : ∀ v ∈ prev, ∃ n : ℕ, v = n / 2) :
    0 < computeTDD wt factor visit prev step ∧
    ∀ ins, 0 < cf ins (computeTDD wt factor visit prev step) := by
  have hpos : 0 < computeTDD wt factor visit prev step := by
    apply computeTDD_pos wt factor step visit prev hw.1 hf hs
    intro v hv
    obtain ⟨n, rfl⟩ := hp v hv
    rcases Nat.eq_zero_or_pos n with rfl | hn
    · left; norm_num
    · right
      have h1 : (1 : ℚ) ≤ (n : ℚ) := by exact_mod_cast hn
      linarith
  refine ⟨hpos, fun ins => ?_⟩
  cases ins <;> simp only [cf] <;> exact div_pos (by norm_num) hpos

/-- Witness for the amended C2 at weight 70, factor 0.3, previous TDD 40,
step 15, repeat visit. -/
theorem C2_tdd_positive_witness :
    0 < computeTDD 70 0.3 VisitType.RepeatWithPrevTDD (some 40) 15 ∧
    ∀ ins, 0 < cf ins (computeTDD 70 0.3 VisitType.RepeatWithPrevTDD (some 40) 15) :=
  C2_tdd_positive 70 0.3 15 VisitType.RepeatWithPrevTDD (some 40)
    (by constructor <;> norm_num)
    (by simp [doseFactors])
    (by simp [stepOptions])
    (by intro v hv; simp at hv; subst hv; exact ⟨80, by norm_num⟩)

/-- Evaluate an integer ceiling from bracketing bounds. -/
theorem ceil_eval {q : ℚ} {n : ℤ} (h1 : (n : ℚ) - 1 < q) (h2 : q ≤ (n : ℚ)) : ⌈q⌉ = n :=
  Int.ceil_eq_iff.mpr ⟨h1, h2⟩

/-- In every closed-bin row of the risk-aware table, the hypo units are at
most the usual units. -/
theorem closedRow_hypo_le (tdd : ℚ) (ins : InsulinType) (target lo : ℤ) :
    (closedRow tdd ins target lo).2 ≤ (closedRow tdd ins target lo).1 := by
  have h := le_max_left 1 ⌈((max 0 (lo - target) : ℤ) : ℚ) / cf ins tdd⌉
  simp only [closedRow]
  exact max_le (by linarith) (by linarith)

/-- In the bumped `>330` row of the risk-aware table, the hypo units are at
most the usual units. -/
theorem openRow_hypo_le (tdd : ℚ) (ins : InsulinType) (target : ℤ) :
    (openRow tdd ins target).2 ≤ (openRow tdd ins target).1 := by
  have h := le_max_left 1 ⌈((max 0 (331 - target) : ℤ) : ℚ) / cf ins tdd⌉
  simp only [openRow]
  exact max_le (by linarith) (by linarith)

/-- C3: the open `>330` bin of the risk-aware correction table is computed
with lo = 331, `delta = max 0 (331 - target)`, `units_usual =
max 1 ⌈delta/cf⌉ + 5`, and `units_hypo = max 0 (units_usual - 1)` from the
bumped value; for tdd = 50, target 130, rapid insulin (cf = 36) this gives
usual 11 and hypo 10 units. -/
theorem C3_open_bin (tdd : ℚ) (ins : InsulinType) (target : ℤ) (ht : 0 < tdd) :
    openRow tdd ins target
      = (max 1 ⌈((max 0 (331 - target) : ℤ) : ℚ) / cf ins tdd⌉ + 5,
         max 0 (max 1 ⌈((max 0 (331 - target) : ℤ) : ℚ) / cf ins tdd⌉ + 5 - 1)) ∧
    openRow 50 InsulinType.Rapid 130 = (11, 10) := by
  refine ⟨rfl, ?_⟩
  have harg : ((max 0 (331 - 130) : ℤ) : ℚ) / cf InsulinType.Rapid 50 = 67/12 := by
    simp only [cf]
    norm_num
  have h6 : ⌈((max 0 (331 - 130) : ℤ) : ℚ) / cf InsulinType.Rapid 50⌉ = 6 := by
    rw [harg]
    exact ceil_eval (by norm_num) (by norm_num)
  simp only [openRow, h6]
  norm_num

/-- Witness for C3 at tdd = 50, rapid insulin, target 130. -/
theorem C3_open_bin_witness : openRow 50 InsulinType.Rapid 130 = (11, 10) :=
  (C3_open_bin 50 InsulinType.Rapid 130 (by norm_num)).2

/-- C4: in both correction tables, for every row, positive tdd, insulin
type and target 130 or 140, the hypo-concern units never exceed the usual
units. -/
theorem C4_hypo_le_usual (tdd : ℚ) (ins : InsulinType) (target : ℤ)
    (ht : 0 < tdd) (htar : target = 130 ∨ target = 140) :
    (∀ r ∈ correctionTable tdd ins target, r.2 ≤ r.1) ∧
    (∀ r ∈ refTable tdd ins, r.2 ≤ r.1) := by
  have hc : 0 < isf ins tdd := by
    cases ins <;> simp only [isf] <;> exact div_pos (by norm_num) ht
  constructor
  · intro r hr
    simp only [correctionTable, bins_40, List.map_cons, List.map_nil, List.mem_append,
      List.mem_cons, List.not_mem_nil, or_false] at hr
    rcases hr with (rfl | rfl | rfl | rfl | rfl) | rfl
    · exact closedRow_hypo_le tdd ins target 131
    · exact closedRow_hypo_le tdd ins target 171
    · exact closedRow_hypo_le tdd ins target 211
    · exact closedRow_hypo_le tdd ins target 251
    · exact closedRow_hypo_le tdd ins target 291
    · exact openRow_hypo_le tdd ins target
  · intro r hr
    simp only [refTable, ref_buckets, List.map_cons, List.map_nil, List.mem_append,
      List.mem_cons, List.not_mem_nil, or_false] at hr
    have key : ∀ lo : ℤ, (refClosedRow tdd ins lo).2 ≤ (refClosedRow tdd ins lo).1 := by
      intro lo
      simp only [refClosedRow]
      have hd : ((max 0 (lo - 140) : ℤ) : ℚ) ≤ ((max 0 (lo - 130) : ℤ) : ℚ) := by
        exact_mod_cast max_le_max le_rfl (by omega : lo - 140 ≤ lo - 130)
      have hceil : ⌈((max 0 (lo - 140) : ℤ) : ℚ) / isf ins tdd⌉
          ≤ ⌈((max 0 (lo - 130) : ℤ) : ℚ) / isf ins tdd⌉ := by
        apply Int.ceil_le_ceil
        gcongr
      refine max_le ?_ ?_
      · exact le_trans zero_le_one (le_max_left _ _)
      · exact le_trans hceil (le_max_right _ _)
    have keyOpen : (refOpenRow tdd ins).2 ≤ (refOpenRow tdd ins).1 := by
      simp only [refOpenRow]
      have hd : ((max 0 (331 - 140) : ℤ) : ℚ) ≤ ((max 0 (331 - 130) : ℤ) : ℚ) := by
        norm_num
      have hceil : ⌈((max 0 (331 - 140) : ℤ) : ℚ) / isf ins tdd⌉
          ≤ ⌈((max 0 (331 - 130) : ℤ) : ℚ) / isf ins tdd⌉ := by
        apply Int.ceil_le_ceil
        gcongr
      have h1 : max 0 ⌈((max 0 (331 - 140) : ℤ) : ℚ) / isf ins tdd⌉
          ≤ max 1 ⌈((max 0 (331 - 130) : ℤ) : ℚ) / isf ins tdd⌉ := by
        refine max_le ?_ ?_
        · exact le_trans zero_le_one (le_max_left _ _)
        · exact le_trans hceil (le_max_right _ _)
      linarith
    rcases hr with (rfl | rfl | rfl | rfl | rfl) | rfl
    · exact key 131
    · exact key 171
    · exact key 211
    · exact key 251
    · exact key 291
    · exact keyOpen

/-- Witness for C4 at tdd = 50, rapid insulin, target 130, applied to the
open rows of both tables. -/
theorem C4_hypo_le_usual_witness :
    (openRow 50 InsulinType.Rapid 130).2 ≤ (openRow 50 InsulinType.Rapid 130).1 ∧
    (refOpenRow 50 InsulinType.Rapid).2 ≤ (refOpenRow 50 InsulinType.Rapid).1 := by
  have h := C4_hypo_le_usual 50 InsulinType.Rapid 130 (by norm_num) (Or.inl rfl)
  exact ⟨h.1 _ (by simp [correctionTable]), h.2 _ (by simp [refTable])⟩

/-! ### Rounding error of the three-way premix split -/

theorem tid_err (j : ℕ) (hj : j < 20) :
    |(pyround (2 * (j:ℚ) / 5) : ℚ) / 2 + (pyround (3 * (j:ℚ) / 10) : ℚ) - (j:ℚ) / 2| ≤ 1/2 := by
  interval_cases j <;> (rw [abs_le]; constructor <;> norm_num [pyround])

theorem tid_sum (k : ℕ) :
    |round_unit ((k:ℚ)/2 * 0.40) + round_unit ((k:ℚ)/2 * 0.30) + round_unit ((k:ℚ)/2 * 0.30)
      - (k:ℚ)/2| ≤ 1/2 := by
  obtain ⟨m, j, hj, rfl⟩ : ∃ m j, j < 20 ∧ k = 20 * m + j :=
    ⟨k / 20, k % 20, Nat.mod_lt _ (by norm_num), (Nat.div_add_mod k 20).symm⟩
  have a1 : 2 * (((20*m+j : ℕ) : ℚ)/2 * 0.40) = 2*(j:ℚ)/5 + 2*((4*(m:ℤ) : ℤ):ℚ) := by
    push_cast; ring
  have a2 : 2 * (((20*m+j : ℕ) : ℚ)/2 * 0.30) = 3*(j:ℚ)/10 + 2*((3*(m:ℤ) : ℤ):ℚ) := by
    push_cast; ring
  simp only [round_unit_eq]
  rw [a1, a2, pyround_add_two_mul, pyround_add_two_mul]
  have e3 : ((pyround (2*(j:ℚ)/5) + 2*(4*(m:ℤ)) : ℤ) : ℚ)/2
      + ((pyround (3*(j:ℚ)/10) + 2*(3*(m:ℤ)) : ℤ) : ℚ)/2
      + ((pyround (3*(j:ℚ)/10) + 2*(3*(m:ℤ)) : ℤ) : ℚ)/2
      - ((20*m+j : ℕ) : ℚ)/2
      = (pyround (2*(j:ℚ)/5) : ℚ)/2 + (pyround (3*(j:ℚ)/10) : ℚ) - (j:ℚ)/2 := by
    push_cast; ring
  rw [e3]
  exact tid_err j hj

/-- C5: for every TDD that is a nonnegative multiple of 0.5 units, the
components of each regimen split (premix twice a day, premix three times a
day, basal bolus) sum back to the TDD within a tolerance of 0.5 units. -/
theorem C5_split_sums (tdd : ℚ) (h : ∃ k : ℕ, tdd = k / 2) :
    |(premixBID tdd).1 + (premixBID tdd).2 - tdd| ≤ 1/2 ∧
    |(premixTID tdd).1 + (premixTID tdd).2.1 + (premixTID tdd).2.2 - tdd| ≤ 1/2 ∧
    |(basalBolus tdd).1 + (basalBolus tdd).2 - tdd| ≤ 1/2 := by
  obtain ⟨k, rfl⟩ := h
  refine ⟨?_, ?_, ?_⟩
  · have h1 := round_unit_bounds ((k:ℚ)/2 * 2 / 3)
    have h2 := round_unit_bounds ((k:ℚ)/2 * 1 / 3)
    show |round_unit ((k:ℚ)/2 * 2 / 3) + round_unit ((k:ℚ)/2 * 1 / 3) - (k:ℚ)/2| ≤ 1/2
    rw [abs_le]
    constructor <;> linarith [h1.1, h1.2, h2.1, h2.2]
  · exact tid_sum k
  · have heq : round_unit ((k:ℚ)/2 * 0.50) = (pyround ((k:ℚ)/2) : ℚ) / 2 := by
      rw [round_unit_eq, show 2 * ((k:ℚ)/2 * 0.50) = (k:ℚ)/2 by ring]
    have hb := pyround_bounds ((k:ℚ)/2)
    show |round_unit ((k:ℚ)/2 * 0.50) + round_unit ((k:ℚ)/2 * 0.50) - (k:ℚ)/2| ≤ 1/2
    rw [heq, abs_le]
    constructor <;> linarith [hb.1, hb.2]

/-- Witness for C5 at TDD 20 (= 40/2). -/
theorem C5_split_sums_witness :
    |(premixBID 20).1 + (premixBID 20).2 - 20| ≤ 1/2 ∧
    |(premixTID 20).1 + (premixTID 20).2.1 + (premixTID 20).2.2 - 20| ≤ 1/2 ∧
    |(basalBolus 20).1 + (basalBolus 20).2 - 20| ≤ 1/2 :=
  C5_split_sums 20 ⟨40, by norm_num⟩

/-- C6: for every tdd in [5,300] and premeal glucose in [60,600], the
standalone bolus correction uses isf = 1500/tdd for Regular and 1800/tdd
for Rapid, usual units 0 below 130 else ⌈(premeal-130)/isf⌉, hypo units 0
below 140 else ⌈(premeal-140)/isf⌉; tdd 50, Regular, premeal 180 gives
isf 30 and 2 units under both protocols. -/
theorem C6_bolus_correction (tdd : ℚ) (premeal : ℤ)
    (ht : 5 ≤ tdd ∧ tdd ≤ 300) (hpm : 60 ≤ premeal ∧ premeal ≤ 600) :
    isf InsulinType.Regular tdd = 1500 / tdd ∧
    isf InsulinType.Rapid tdd = 1800 / tdd ∧
    (∀ ins, bolusUnitsUsual tdd ins premeal
        = if premeal ≤ 130 then 0 else ⌈((premeal : ℚ) - 130) / isf ins tdd⌉) ∧
    (∀ ins, bolusUnitsHypo tdd ins premeal
        = if premeal ≤ 140 then 0 else ⌈((premeal : ℚ) - 140) / isf ins tdd⌉) ∧
    isf InsulinType.Regular 50 = 30 ∧
    bolusUnitsUsual 50 InsulinType.Regular 180 = 2 ∧
    bolusUnitsHypo 50 InsulinType.Regular 180 = 2 := by
  refine ⟨rfl, rfl, fun ins => rfl, fun ins => rfl, by norm_num [isf], ?_, ?_⟩
  · show (if (180:ℤ) ≤ 130 then 0 else ⌈(((180:ℤ) : ℚ) - 130) / isf InsulinType.Regular 50⌉) = 2
    rw [if_neg (by norm_num)]
    rw [show (((180:ℤ) : ℚ) - 130) / isf InsulinType.Regular 50 = 5/3 by
      simp only [isf]; norm_num]
    exact ceil_eval (by norm_num) (by norm_num)
  · show (if (180:ℤ) ≤ 140 then 0 else ⌈(((180:ℤ) : ℚ) - 140) / isf InsulinType.Regular 50⌉) = 2
    rw [if_neg (by norm_num)]
    rw [show (((180:ℤ) : ℚ) - 140) / isf InsulinType.Regular 50 = 4/3 by
      simp only [isf]; norm_num]
    exact ceil_eval (by norm_num) (by norm_num)

/-- Witness for C6 at tdd 50, Regular, premeal 180. -/
theorem C6_bolus_correction_witness :
    isf InsulinType.Regular 50 = 30 ∧
    bolusUnitsUsual 50 InsulinType.Regular 180 = 2 ∧
    bolusUnitsHypo 50 InsulinType.Regular 180 = 2 := by
  have h := C6_bolus_correction 50 180 (by constructor <;> norm_num) (by constructor <;> norm_num)
  exact ⟨h.2.2.2.2.1, h.2.2.2.2.2.1, h.2.2.2.2.2.2⟩

/-- C7: the reference correction table of the standalone bolus calculator
uses the same fixed bins as the risk-aware table, computes each row with
targets hardcoded to 130 (usual) and 140 (hypo) independent of any selected
risk category, and its open `>330` bin adds +5 to the usual units and +4 to
the hypo units, the hypo units computed from their own delta of 191; this
differs from the risk-aware table's usual-only bump, e.g. at tdd 18 rapid. -/
theorem C7_reference_table (tdd : ℚ) (ins : InsulinType) (ht : 0 < tdd) :
    ref_buckets = bins_40 ∧
    (∀ lo : ℤ, refClosedRow tdd ins lo
        = (max 1 ⌈((max 0 (lo - 130) : ℤ) : ℚ) / isf ins tdd⌉,
           max 0 ⌈((max 0 (lo - 140) : ℤ) : ℚ) / isf ins tdd⌉)) ∧
    refOpenRow tdd ins
      = (max 1 ⌈(201 : ℚ) / isf ins tdd⌉ + 5, max 0 ⌈(191 : ℚ) / isf ins tdd⌉ + 4) ∧
    (refOpenRow 18 InsulinType.Rapid).2 ≠ (openRow 18 InsulinType.Rapid 130).2 := by
  refine ⟨rfl, fun lo => rfl, ?_, ?_⟩
  · show (max 1 ⌈((max 0 (331 - 130) : ℤ) : ℚ) / isf ins tdd⌉ + 5,
          max 0 ⌈((max 0 (331 - 140) : ℤ) : ℚ) / isf ins tdd⌉ + 4)
        = (max 1 ⌈(201 : ℚ) / isf ins tdd⌉ + 5, max 0 ⌈(191 : ℚ) / isf ins tdd⌉ + 4)
    rw [show (max 0 (331 - 130) : ℤ) = 201 by decide,
      show (max 0 (331 - 140) : ℤ) = 191 by decide]
    norm_num
  · have h1 : (refOpenRow 18 InsulinType.Rapid).2 = 6 := by
      show max 0 ⌈((max 0 (331 - 140) : ℤ) : ℚ) / isf InsulinType.Rapid 18⌉ + 4 = 6
      rw [show ((max 0 (331 - 140) : ℤ) : ℚ) / isf InsulinType.Rapid 18 = 191/100 by
        simp only [isf]; norm_num]
      have hc2 : ⌈(191/100 : ℚ)⌉ = 2 := ceil_eval (by norm_num) (by norm_num)
      rw [hc2]
      decide
    have h2 : (openRow 18 InsulinType.Rapid 130).2 = 7 := by
      show max 0 (max 1 ⌈((max 0 (331 - 130) : ℤ) : ℚ) / cf InsulinType.Rapid 18⌉ + 5 - 1) = 7
      rw [show ((max 0 (331 - 130) : ℤ) : ℚ) / cf InsulinType.Rapid 18 = 201/100 by
        simp only [cf]; norm_num]
      have hc3 : ⌈(201/100 : ℚ)⌉ = 3 := ceil_eval (by norm_num) (by norm_num)
      rw [hc3]
      decide
    rw [h1, h2]
    norm_num

/-- Witness for C7 at tdd 50, rapid insulin. -/
theorem C7_reference_table_witness :
    refOpenRow 50 InsulinType.Rapid
      = (max 1 ⌈(201 : ℚ) / isf InsulinType.Rapid 50⌉ + 5,
         max 0 ⌈(191 : ℚ) / isf InsulinType.Rapid 50⌉ + 4) ∧
    (refOpenRow 18 InsulinType.Rapid).2 ≠ (openRow 18 InsulinType.Rapid 130).2 := by
  have h := C7_reference_table 50 InsulinType.Rapid (by norm_num)
  exact ⟨h.2.2.1, h.2.2.2⟩

/-- C8: `round_unit` at step 0.5 is idempotent, and on an exact tie
(fractional part of x/0.5 equal to 1/2) the chosen integer x/0.5 rounds to
is even, i.e. ties go to the nearest even multiple of 0.5. -/
theorem C8_round_unit_idem (x : ℚ) :
    round_unit (round_unit x) = round_unit x ∧
    (x / (1/2) - ⌊x / (1/2)⌋ = 1/2 → Even (pyround (x / (1/2)))) := by
  constructor
  · have hx : round_unit x = ((pyround (2*x) : ℤ) : ℚ) / 2 := round_unit_eq x
    rw [hx, round_unit_eq,
      show 2 * (((pyround (2*x) : ℤ) : ℚ) / 2) = ((pyround (2*x) : ℤ) : ℚ) by ring,
      pyround_intCast]
  · intro htie
    unfold pyround
    rw [htie]
    rw [if_neg (lt_irrefl (1/2 : ℚ)), if_neg (lt_irrefl (1/2 : ℚ))]
    split_ifs with h
    · exact Int.even_iff.mpr h
    · rw [Int.even_iff]
      omega

/-- Witness for C8 at the tie x = 1/4 (x/0.5 = 1/2, rounded to 0). -/
theorem C8_round_unit_idem_witness :
    round_unit (round_unit (1/4 : ℚ)) = round_unit (1/4 : ℚ) ∧
    Even (pyround ((1/4 : ℚ) / (1/2))) :=
  ⟨(C8_round_unit_idem (1/4)).1,
   (C8_round_unit_idem (1/4)).2 (by
    rw [show ((1/4 : ℚ) / (1/2)) = 1/2 by norm_num,
      show ⌊(1/2 : ℚ)⌋ = 0 by rw [Int.floor_eq_iff] <;> norm_num]
    norm_num)⟩

/-- C9: a previous TDD equal to 0.0 is treated as absent under Python's
falsiness, so a repeat visit, an escalation and a de-escalation all fall
back to weight times factor (scaled where applicable), and the resulting
TDD is strictly positive, never 0. -/
theorem C9_zero_prev_fallback (wt factor step : ℚ)
    (hw : 20 ≤ wt ∧ wt ≤ 300) (hf : factor ∈ doseFactors) (hs : step ∈ stepOptions) :
    computeTDD wt factor VisitType.RepeatWithPrevTDD (some 0) step
      = round_unit (wt * factor) ∧
    computeTDD wt factor VisitType.InadequateControl (some 0) step
      = round_unit (wt * factor * (1 + step / 100)) ∧
    computeTDD wt factor VisitType.Hypoglycemia (some 0) step
      = round_unit (wt * factor * (1 - step / 100)) ∧
    0 < computeTDD wt factor VisitType.RepeatWithPrevTDD (some 0) step ∧
    0 < computeTDD wt factor VisitType.InadequateControl (some 0) step ∧
    0 < computeTDD wt factor VisitType.Hypoglycemia (some 0) step := by
  have hfall : orFallback (some 0) (wt * factor) = wt * factor := by
    simp [orFallback]
  have hp : ∀ v ∈ (some (0:ℚ)), v = 0 ∨ 1/2 ≤ v := by
    intro v hv
    simp at hv
    subst hv
    exact Or.inl rfl
  refine ⟨?_, ?_, ?_,
    computeTDD_pos wt factor step VisitType.RepeatWithPrevTDD (some 0) hw.1 hf hs hp,
    computeTDD_pos wt factor step VisitType.InadequateControl (some 0) hw.1 hf hs hp,
    computeTDD_pos wt factor step VisitType.Hypoglycemia (some 0) hw.1 hf hs hp⟩
  · simp only [computeTDD, rawTDD, hfall]
  · simp only [computeTDD, rawTDD, hfall]
  · simp only [computeTDD, rawTDD, hfall]

/-- Witness for C9 at weight 70, factor 0.3, step 15. -/
theorem C9_zero_prev_fallback_witness :
    computeTDD 70 0.3 VisitType.RepeatWithPrevTDD (some 0) 15 = round_unit (70 * 0.3) ∧
    0 < computeTDD 70 0.3 VisitType.Hypoglycemia (some 0) 15 := by
  have h := C9_zero_prev_fallback 70 0.3 15 (by constructor <;> norm_num)
    (by simp [doseFactors]) (by simp [stepOptions])
  exact ⟨h.1, h.2.2.2.2.2⟩

/-- C10: in the risk-aware correction table, for positive tdd and target
130 or 140, the usual units are non-decreasing from the first bin through
the open `>330` row, and likewise the hypo units. -/
theorem C10_rows_monotone (tdd : ℚ) (ins : InsulinType) (target : ℤ)
    (ht : 0 < tdd) (htar : target = 130 ∨ target = 140) :
    List.Chain' (· ≤ ·) ((correctionTable tdd ins target).map Prod.fst) ∧
    List.Chain' (· ≤ ·) ((correctionTable tdd ins target).map Prod.snd) := by
  have hc : 0 < cf ins tdd := by
    cases ins <;> simp only [cf] <;> exact div_pos (by norm_num) ht
  have core : ∀ lo lo' : ℤ, lo ≤ lo' →
      max 1 ⌈((max 0 (lo - target) : ℤ) : ℚ) / cf ins tdd⌉
        ≤ max 1 ⌈((max 0 (lo' - target) : ℤ) : ℚ) / cf ins tdd⌉ := by
    intro lo lo' h
    apply max_le_max le_rfl
    apply Int.ceil_le_ceil
    gcongr
  constructor
  · simp only [correctionTable, bins_40, List.map_cons, List.map_nil, List.cons_append,
      List.nil_append, List.map_append, List.chain'_cons, List.chain'_singleton, and_true]
    dsimp only [closedRow, openRow]
    refine ⟨core 131 171 (by norm_num), core 171 211 (by norm_num),
      core 211 251 (by norm_num), core 251 291 (by norm_num), ?_⟩
    have h := core 291 331 (by norm_num)
    linarith
  · simp only [correctionTable, bins_40, List.map_cons, List.map_nil, List.cons_append,
      List.nil_append, List.map_append, List.chain'_cons, List.chain'_singleton, and_true]
    dsimp only [closedRow, openRow]
    refine ⟨max_le_max le_rfl (by linarith [core 131 171 (by norm_num)]),
      max_le_max le_rfl (by linarith [core 171 211 (by norm_num)]),
      max_le_max le_rfl (by linarith [core 211 251 (by norm_num)]),
      max_le_max le_rfl (by linarith [core 251 291 (by norm_num)]),
      max_le_max le_rfl (by linarith [core 291 331 (by norm_num)])⟩

/-- Witness for C10 at tdd 50, rapid insulin, target 130. -/
theorem C10_rows_monotone_witness :
    List.Chain' (· ≤ ·) ((correctionTable 50 InsulinType.Rapid 130).map Prod.fst) ∧
    List.Chain' (· ≤ ·) ((correctionTable 50 InsulinType.Rapid 130).map Prod.snd) :=
  C10_rows_monotone 50 InsulinType.Rapid 130 (by norm_num) (Or.inl rfl)

end Insulin
